import Mathlib

/-!
# M5StickC DS18B20 thermometer: page controller, refresh timers and colour rules

A shallow embedding of `src/main.cpp`.  Globals of the sketch become the fields of `State`,
what the hardware reports during one pass of `loop()` becomes an `Env`, and what the pass
does to the display and to persistent storage becomes a list of `Effect`s.

The display library's colour table and the platform's single-precision arithmetic are not
part of the repository; they enter the model as the parameters `Palette` and `Fpu`.
`ieee` is the instance of `Fpu` that computes on IEEE-754 bit patterns as the target does.
-/

namespace M5StickC

/-! ## Build-time constants (main.cpp lines 16-38) -/

def DISPLAY_TOD_INTERVAL_MS : Nat := 1 * 1000
def TEMP_MEASURE_INTERVAL_MS : Nat := 10 * 1000
def PAGE3_UPDATE_MS : Nat := 5 * 1000
def UPDATE_IND_RADIUS : Int := 8
def UPDATE_IND_ON_MS : Nat := 500

def thermom_spr_wdth : Int := 200
def thermom_spr_ht : Int := 25
def thermom_spr_rad : Int := 5

def batt_spr_wdth : Int := 37
def batt_spr_ht : Int := 20
def batt_rect_width : Int := 30
def batt_rect_height : Int := 14

/-- Width of `unsigned long` on the target: `millis()` and the refresh timers wrap at `2^32`. -/
def ULONG_MOD : Nat := 2 ^ 32

/-- Conversion of an `int` colour constant to `uint16_t`. -/
def uint16_t (x : Int) : Int := x % 65536

/-! ## Parameters standing for the libraries -/

/-- Colour constants and colour conversions of the display library, which the sketch only
names.  Every theorem below holds for an arbitrary table unless it says otherwise. -/
structure Palette where
  TFT_BLACK : Int
  TFT_BLUE : Int
  TFT_SKYBLUE : Int
  TFT_ORANGE : Int
  TFT_RED : Int
  TFT_DARKGREY : Int
  TFT_DARKGRAY : Int
  TFT_DARKGREEN : Int
  TFT_GREEN : Int
  TFT_CYAN : Int
  TFT_WHITE : Int
  TFT_LIGHTGRAY : Int
  color24to16 : Nat → Int
  color565 : Nat → Nat → Nat → Int

/-- RGB565 table of the display library as it ships, used where a concrete table is needed. -/
def m5gfx : Palette where
  TFT_BLACK := 0x0000
  TFT_BLUE := 0x001F
  TFT_SKYBLUE := 0x867D
  TFT_ORANGE := 0xFDA0
  TFT_RED := 0xF800
  TFT_DARKGREY := 0x7BEF
  TFT_DARKGRAY := 0x7BEF
  TFT_DARKGREEN := 0x03E0
  TFT_GREEN := 0x07E0
  TFT_CYAN := 0x07FF
  TFT_WHITE := 0xFFFF
  TFT_LIGHTGRAY := 0xD69A
  color24to16 := fun rgb =>
    Int.ofNat ((rgb / 256 % 65536 / 2048) * 2048 + (rgb / 32 % 2048 / 32) * 32 + rgb / 8 % 32)
  color565 := fun r g b => Int.ofNat ((r / 8) * 2048 + (g / 4) * 32 + b / 8)

/-- A `float` value.  The page controller never looks inside it: `code` only tells values
apart, and all arithmetic on it is the platform's, see `Fpu`.  For the platform `ieee` the
code is the IEEE-754 single-precision bit pattern. -/
structure float where
  code : Int
deriving DecidableEq, Repr

/-- Single-precision operations the sketch uses, as the platform performs them. -/
structure Fpu where
  /-- literal `0.0` -/
  zero : float
  /-- Source form `x += 0.2`. -/
  add_0_2 : float → float
  /-- Source form `x -= 0.2`. -/
  sub_0_2 : float → float
  /-- Source form `x + y`. -/
  add : float → float → float
  /-- Source form `(int)round(x)`. -/
  round : float → Int

/-- A stand-in platform for concrete runs: a value is held in tenths of a degree, so the
three arithmetic operations are exact and rounding is to the nearest degree, halves away
from zero. -/
def tenths : Fpu where
  zero := ⟨0⟩
  add_0_2 := fun x => ⟨x.code + 2⟩
  sub_0_2 := fun x => ⟨x.code - 2⟩
  add := fun x y => ⟨x.code + y.code⟩
  round := fun x => if 0 ≤ x.code then (x.code + 5) / 10 else -((-x.code + 5) / 10)

/-! ## Colour rules -/

/-- Lines 373-399: `int temp_to_color(int temp)`, a `switch` over inclusive case ranges. -/
def temp_to_color (pal : Palette) (temp : Int) : Int :=
  if -50 ≤ temp ∧ temp ≤ 15 then pal.TFT_BLUE
  else if 16 ≤ temp ∧ temp ≤ 19 then pal.TFT_SKYBLUE
  else if 20 ≤ temp ∧ temp ≤ 22 then pal.color24to16 0xff944d
  else if 23 ≤ temp ∧ temp ≤ 25 then pal.TFT_ORANGE
  else if 26 ≤ temp ∧ temp ≤ 150 then pal.TFT_RED
  else pal.TFT_DARKGREY

/-- Lines 577-588: `uint16_t batt_percent_to_color(int32_t batt)`.  `color` starts as
white and is returned after the `if / else if / else if` chain. -/
def batt_percent_to_color (pal : Palette) (batt : Int) : Int :=
  let color := uint16_t pal.TFT_WHITE
  if batt < 20 then uint16_t pal.TFT_RED
  else if batt ≥ 20 ∧ batt < 50 then uint16_t pal.TFT_ORANGE
  else if batt ≥ 50 then uint16_t pal.TFT_DARKGREEN
  else color

/-! ## Thermometer bar (lines 278-287) -/

/-- The bar drawn into the thermometer sprite. -/
structure Bar where
  disp_temp : Int
  bar_width : Int
  bar_color : Int
deriving DecidableEq, Repr

/-- Lines 280-286, from the value of `(int)round(temperature)` on: clamp to the 10..40
scale, scale to the sprite width with C integer division, pick the colour. -/
def thermom_bar (pal : Palette) (rounded : Int) : Bar :=
  let disp_temp := rounded
  let disp_temp := if disp_temp > 40 then 40 else disp_temp
  let disp_temp := if disp_temp < 10 then 10 else disp_temp
  let bar_width := Int.tdiv ((disp_temp - 10) * thermom_spr_wdth) (40 - 10)
  let bar_color := temp_to_color pal disp_temp
  { disp_temp := disp_temp, bar_width := bar_width, bar_color := bar_color }

/-- The spec's wording of the clamp: `t` limited to the range `lo..hi`. -/
def clamp (t lo hi : Int) : Int := max lo (min t hi)

/-! ## State, inputs and effects of one pass of `loop()` -/

/-- The globals the page controller reads and writes (lines 54-61), the `static` flag
`display_once` of `loop()` (line 139), and the stored calibration value (key `correction`
of the preferences namespace `correction`).  Globals that only drawing routines use
(`t`, `timeinfo`, the sprites) are left out. -/
structure State where
  update_tod_ms : Nat
  update_temp_sensor_ms : Nat
  update_page3 : Nat
  update_indicator_ms : Nat
  display_page : Int
  temp_correction : float
  display_once : Bool
  eeprom_correction : Option float
deriving DecidableEq, Repr

/-- What the three buttons report after one `M5.update()`. -/
structure Buttons where
  /-- Call `M5.BtnA.isHolding()` -/
  a_holding : Bool
  /-- Call `M5.BtnA.isPressed()` -/
  a_pressed : Bool
  /-- Call `M5.BtnA.wasClicked()` -/
  a_clicked : Bool
  /-- Call `M5.BtnB.wasClicked()` -/
  b_clicked : Bool
  /-- Call `M5.BtnPWR.wasClicked()` -/
  pwr_clicked : Bool
deriving DecidableEq, Repr

/-- Everything the hardware reports during one pass of `loop()`.  A busy-wait of the sketch
consumes a list of polls; when the list ends before the exit condition is met, the pass
has not returned within the recorded inputs and the model answers `none`. -/
structure Env where
  /-- buttons after the `M5.update()` of line 146 -/
  update0 : Buttons
  /-- buttons after each later `M5.update()` of the same pass (lines 178, 185, 216) -/
  updates : List Buttons
  /-- Call `WiFi.status() == WL_CONNECTED`, one entry per poll (line 420) -/
  wifi_connected : List Bool
  /-- Call `sntp_get_sync_status() == SNTP_SYNC_STATUS_RESET`, one entry per poll (line 436) -/
  sntp_reset : List Bool
  /-- Call `time(nullptr)`, one entry per call (lines 443-444) -/
  time : List Int
  /-- Call `millis()` of line 237 -/
  millis_erase : Nat
  /-- Call `millis()` in the page's refresh test (line 242, 251 or 305) -/
  millis_check : Nat
  /-- Call `millis()` in the assignment of the page's next-due time (line 243, 252 or 310) -/
  millis_due : Nat
  /-- Call `millis()` in the assignment of the indicator's off time (line 244, 253 or 311) -/
  millis_ind : Nat
  /-- Call `sensor.isConnected()` -/
  is_connected : Bool
  /-- Call `sensor.isConversionComplete()`, one entry per poll (line 259) -/
  conversion_complete : List Bool
  /-- Call `sensor.getTempC()` -/
  temp_c : float
  /-- Call `M5.Power.getBatteryLevel()` -/
  battery_level : Int
  /-- Call `M5.Power.isCharging()` -/
  is_charging : Bool
  /-- Call `M5.Power.Axp192.getVBUSVoltage()` -/
  vbus : float

/-- Strings handed to `drawString`: the literals of the sketch and the `sprintf` results. -/
inductive Text where
  | calibrate_temp
  | offset_label
  | finished
  | ds18b20
  | not_connected
  | level_label
  | state_label
  | usb_label
  | charging
  | full
  | discharge
  | wifi
  | connected
  | syncing_clock
  | star
  | clock_synced
  /-- Result of `sprintf` with format `%.2f` on the calibration offset. -/
  | offset (v : float)
  /-- Result of `sprintf` with format `%.1f C` on the corrected temperature. -/
  | temperature (v : float)
  /-- Result of `sprintf` with format `%d%%` on the battery level. -/
  | percent (n : Int)
  /-- Result of `sprintf` with format `%.1f V` on the USB voltage. -/
  | volts (v : float)
deriving DecidableEq, Repr

/-- Calls that change the display, the sprites, the network, the clock chip or the
preference store.  Fonts, text datum, padding, coordinates of text, delays and log lines
are not recorded. -/
inductive Effect where
  /-- Call `M5.Display.clear()` -/
  | clear
  /-- Call `M5.Display.setTextColor(fg, bg)` -/
  | setTextColor (fg bg : Int)
  /-- Call `M5.Display.drawString(txt, x, y)` -/
  | drawString (txt : Text)
  /-- Call `M5.Display.fillCircle(circ_x, circ_y, r, color)`: the update indicator -/
  | fillCircle (r color : Int)
  /-- Call `M5.Display.drawCircle(x + 55, y + 15, r)`: the degree sign -/
  | drawCircle (r : Int)
  /-- Call `thermom_sprite.clear()` -/
  | sprite_clear
  /-- Call `thermom_sprite.drawRoundRect(0, 0, w, h, r, color)` -/
  | drawRoundRect (w h r color : Int)
  /-- Call `thermom_sprite.fillRoundRect(x, y, w, h, r, color)` -/
  | fillRoundRect (x y w h r color : Int)
  /-- Call `thermom_sprite.pushSprite(..)` -/
  | pushSprite
  /-- Call `sensor.requestTemperatures()` -/
  | requestTemperatures
  /-- Call `WiFi.begin(..)` -/
  | wifi_begin
  /-- Call `configTzTime(..)` -/
  | configTzTime
  /-- Call `M5.Rtc.setDateTime(localtime(&t))` -/
  | rtc_setDateTime (t : Int)
  /-- Call `WiFi.disconnect(true)` -/
  | wifi_disconnect
  /-- Call `eeprom.putFloat` on key `correction` with value `v`. -/
  | eeprom_putFloat (v : float)
  /-- call of `draw_bargraph_scale()` -/
  | draw_bargraph_scale
  /-- call of `display_tod()` -/
  | display_tod
  /-- call of `display_splash_screen()` -/
  | display_splash_screen
  /-- Calls of `fillSprite`, `drawRect` and the two `fillRect` calls that draw the empty battery icon -/
  | batt_outline
  /-- Call `batt_sprite.fillRect(spr_x + 1, spr_y + 1, w, h, colour)`: the battery level -/
  | batt_fill (w h colour : Int)
  /-- the two `fillTriangle` calls of the lightning bolt -/
  | batt_bolt (colour : Int)
  /-- Call `batt_sprite.pushRotateZoom(..)` -/
  | pushRotateZoom
deriving DecidableEq, Repr

/-- A busy-wait: polls are dropped until one meets `done`.  The answer is that poll and
the polls left over, or `none` when the recorded polls end first. -/
def poll_until {α : Type} (done : α → Bool) : List α → Option (α × List α)
  | [] => none
  | a :: rest => if done a then some (a, rest) else poll_until done rest

/-! ## The routines called from `loop()` -/

/-- Lines 436-440: one progress mark per poll that still reports the reset state. -/
def sntp_wait : List Bool → Option (List Effect)
  | [] => none
  | reset :: rest =>
    if reset then
      match sntp_wait rest with
      | none => none
      | some out => some (Effect.drawString Text.star :: out)
    else some []

/-- Lines 405-455: `sync_rtc_to_ntp()`.  Three busy-waits in a row: for the network, for
the time sync, and for the second after the first `time(nullptr)` reading to begin. -/
def sync_rtc_to_ntp (env : Env) : Option (List Effect) :=
  match poll_until (fun connected => connected) env.wifi_connected with
  | none => none
  | some _ =>
    match sntp_wait env.sntp_reset with
    | none => none
    | some marks =>
      match env.time with
      | [] => none
      | t0 :: later =>
        let t := t0 + 1
        match poll_until (fun now => !decide (t > now)) later with
        | none => none
        | some _ =>
          some ([Effect.drawString Text.wifi, Effect.wifi_begin,
                 Effect.drawString Text.connected, Effect.drawString Text.syncing_clock,
                 Effect.configTzTime] ++ marks ++
                [Effect.rtc_setDateTime t, Effect.drawString Text.clock_synced,
                 Effect.wifi_disconnect])

/-- Lines 177-180: `while (M5.BtnA.isPressed()) { M5.update(); delay(100); }`. -/
def wait_release (cur : Buttons) (later : List Buttons) : Option (Buttons × List Buttons) :=
  if cur.a_pressed then poll_until (fun b => !b.a_pressed) later else some (cur, later)

/-- Lines 184-198: the `do { .. } while (!M5.BtnA.wasClicked())` loop of the calibration.
Each turn takes one `M5.update()`; button B adds 0.2, else the power button takes 0.2
off, and the turn in which button A reports a click is the last.  The answer is the
offset, what was drawn, and the polls left over. -/
def calibrate_polls (hw : Fpu) : float → List Buttons → Option (float × List Effect × List Buttons)
  | _, [] => none
  | temp_correction, b :: later =>
    let turn : float × List Effect :=
      if b.b_clicked then
        (hw.add_0_2 temp_correction, [Effect.drawString (Text.offset (hw.add_0_2 temp_correction))])
      else if b.pwr_clicked then
        (hw.sub_0_2 temp_correction, [Effect.drawString (Text.offset (hw.sub_0_2 temp_correction))])
      else (temp_correction, [])
    if b.a_clicked then some (turn.1, turn.2, later)
    else
      match calibrate_polls hw turn.1 later with
      | none => none
      | some (tc, drawn, rest) => some (tc, turn.2 ++ drawn, rest)

/-- Lines 157-216: the calibration branch of the hold handler.  It ends with one more
`M5.update()`, whose report is what the click test of line 220 then sees. -/
def calibrate (pal : Palette) (hw : Fpu) (env : Env) (s : State) :
    Option (State × Buttons × List Effect) :=
  match wait_release env.update0 env.updates with
  | none => none
  | some (_, later) =>
    match calibrate_polls hw s.temp_correction later with
    | none => none
    | some (tc, drawn, rest) =>
      match rest with
      | [] => none
      | last :: _ =>
        some ({ s with temp_correction := tc, eeprom_correction := some tc, display_page := 1 },
              last,
              [Effect.clear,
               Effect.setTextColor pal.TFT_GREEN pal.TFT_BLACK, Effect.drawString Text.calibrate_temp,
               Effect.setTextColor pal.TFT_ORANGE pal.TFT_BLACK, Effect.drawString Text.offset_label,
               Effect.setTextColor pal.TFT_CYAN pal.TFT_BLACK,
               Effect.drawString (Text.offset s.temp_correction)] ++ drawn ++
              [Effect.setTextColor pal.TFT_GREEN pal.TFT_BLACK, Effect.drawString Text.finished,
               Effect.eeprom_putFloat tc, Effect.clear, Effect.draw_bargraph_scale])

/-- Lines 149-218: what `loop()` does while button A reports a hold.  The answer carries
the button report that is current when line 220 is reached. -/
def hold_handler (pal : Palette) (hw : Fpu) (env : Env) (s : State) :
    Option (State × Buttons × List Effect) :=
  if env.update0.a_holding then
    if s.display_page = 0 then
      match sync_rtc_to_ntp env with
      | none => none
      | some out =>
        some ({ s with display_page := 0 }, env.update0, [Effect.clear] ++ out ++ [Effect.clear])
    else if s.display_page = 1 then calibrate pal hw env s
    else some (s, env.update0, [])
  else some (s, env.update0, [])

/-- Lines 220-234: what `loop()` does when button A reports a click. -/
def click_handler (s : State) : State × List Effect :=
  let s := { s with update_tod_ms := 0 }
  let s := { s with update_temp_sensor_ms := 0 }
  let s := { s with display_page := s.display_page + 1 }
  let s := if s.display_page > 3 then { s with display_page := 0 } else s
  let scale := if s.display_page = 1 then [Effect.draw_bargraph_scale] else []
  let s := if s.display_page = 3 then { s with display_once := false } else s
  (s, Effect.clear :: scale)

/-- Lines 534-575: `disp_batt_symbol`. -/
def disp_batt_symbol (pal : Palette) (env : Env) : List Effect :=
  let batt_percent := env.battery_level
  let batt_fill_length := Int.tdiv (batt_percent * batt_rect_width) 100
  let fill_colour := batt_percent_to_color pal batt_percent
  [Effect.batt_outline, Effect.batt_fill (batt_fill_length - 2) (batt_rect_height - 2) fill_colour] ++
  (if env.is_charging then [Effect.batt_bolt pal.TFT_ORANGE] else []) ++
  [Effect.pushRotateZoom]

/-- Lines 256-299: the drawing of the Thermometer page once its refresh is due. -/
def draw_thermometer (pal : Palette) (hw : Fpu) (env : Env) (temp_correction : float) :
    Option (List Effect) :=
  if env.is_connected then
    match poll_until (fun complete => complete) env.conversion_complete with
    | none => none
    | some _ =>
      let temperature := hw.add env.temp_c temp_correction
      let bar := thermom_bar pal (hw.round temperature)
      some [Effect.requestTemperatures,
            Effect.setTextColor pal.TFT_GREEN pal.TFT_BLACK,
            Effect.drawString (Text.temperature temperature),
            Effect.drawCircle 7, Effect.drawCircle 6,
            Effect.sprite_clear,
            Effect.drawRoundRect thermom_spr_wdth thermom_spr_ht thermom_spr_rad pal.TFT_LIGHTGRAY,
            Effect.fillRoundRect 1 1 (bar.bar_width - 2) (thermom_spr_ht - 2) thermom_spr_rad
              bar.bar_color,
            Effect.pushSprite]
  else
    some [Effect.setTextColor pal.TFT_RED pal.TFT_BLACK, Effect.clear,
          Effect.drawString Text.ds18b20, Effect.drawString Text.not_connected]

/-- Lines 314-351: the drawing of the Battery page once its refresh is due. -/
def draw_battery (pal : Palette) (env : Env) : List Effect :=
  let batt_percent := env.battery_level
  let batt_color := batt_percent_to_color pal batt_percent
  [Effect.setTextColor pal.TFT_ORANGE pal.TFT_BLACK, Effect.drawString Text.level_label,
   Effect.setTextColor batt_color pal.TFT_BLACK, Effect.drawString (Text.percent batt_percent),
   Effect.setTextColor pal.TFT_ORANGE pal.TFT_BLACK, Effect.drawString Text.state_label,
   Effect.setTextColor pal.TFT_DARKGRAY pal.TFT_BLACK,
   Effect.drawString
     (if env.is_charging then Text.charging
      else if env.battery_level = 100 then Text.full else Text.discharge),
   Effect.setTextColor pal.TFT_ORANGE pal.TFT_BLACK, Effect.drawString Text.usb_label,
   Effect.setTextColor pal.TFT_CYAN pal.TFT_BLACK, Effect.drawString (Text.volts env.vbus)] ++
  disp_batt_symbol pal env

/-- Line 59: `indicator_color_on`. -/
def indicator_color_on (pal : Palette) : Int := pal.color565 100 100 100

/-- Line 60: `indicator_color_off`. -/
def indicator_color_off (pal : Palette) : Int := pal.color565 0 0 0

/-- Lines 240-364: the `switch (display_page)` of `loop()`, the refresh test of each page. -/
def page_switch (pal : Palette) (hw : Fpu) (env : Env) (s : State) : Option (State × List Effect) :=
  if s.display_page = 0 then
    if env.millis_check ≥ s.update_tod_ms then
      let s := { s with update_tod_ms := (env.millis_due + DISPLAY_TOD_INTERVAL_MS) % ULONG_MOD }
      let s := { s with update_indicator_ms := (env.millis_ind + UPDATE_IND_ON_MS) % ULONG_MOD }
      some (s, [Effect.fillCircle UPDATE_IND_RADIUS (indicator_color_on pal), Effect.display_tod])
    else some (s, [])
  else if s.display_page = 1 then
    if env.millis_check ≥ s.update_temp_sensor_ms then
      let s := { s with
        update_temp_sensor_ms := (env.millis_due + TEMP_MEASURE_INTERVAL_MS) % ULONG_MOD }
      let s := { s with update_indicator_ms := (env.millis_ind + UPDATE_IND_ON_MS) % ULONG_MOD }
      match draw_thermometer pal hw env s.temp_correction with
      | none => none
      | some drawn =>
        some (s, Effect.fillCircle UPDATE_IND_RADIUS (indicator_color_on pal) :: drawn)
    else some (s, [])
  else if s.display_page = 2 then
    if env.millis_check ≥ s.update_page3 then
      let s := { s with update_page3 := (env.millis_due + PAGE3_UPDATE_MS) % ULONG_MOD }
      let s := { s with update_indicator_ms := (env.millis_ind + UPDATE_IND_ON_MS) % ULONG_MOD }
      some (s, Effect.fillCircle UPDATE_IND_RADIUS (indicator_color_on pal) :: draw_battery pal env)
    else some (s, [])
  else if s.display_page = 3 then
    if !s.display_once then
      some ({ s with display_once := true }, [Effect.display_splash_screen])
    else some (s, [])
  else some (s, [])

/-- Lines 236-238: the update indicator is erased once its on-time has passed. -/
def erase_indicator (pal : Palette) (env : Env) (s : State) : List Effect :=
  if env.millis_erase > s.update_indicator_ms then
    [Effect.fillCircle UPDATE_IND_RADIUS (indicator_color_off pal)]
  else []

/-- Lines 134-365: one pass of `loop()`. -/
def loop (pal : Palette) (hw : Fpu) (env : Env) (s : State) : Option (State × List Effect) :=
  match hold_handler pal hw env s with
  | none => none
  | some (s1, btn, held) =>
    let clicked := if btn.a_clicked then click_handler s1 else (s1, [])
    let s2 := clicked.1
    let erased := erase_indicator pal env s2
    match page_switch pal hw env s2 with
    | none => none
    | some (s3, drawn) => some (s3, held ++ clicked.2 ++ erased ++ drawn)

/-- Consecutive passes of `loop()`, one `Env` each. -/
def run (pal : Palette) (hw : Fpu) : List Env → State → Option (State × List Effect)
  | [], s => some (s, [])
  | env :: later, s =>
    match loop pal hw env s with
    | none => none
    | some (s1, out1) =>
      match run pal hw later s1 with
      | none => none
      | some (s2, out2) => some (s2, out1 ++ out2)

/-- Lines 54-61 and 107-128: the state in which `setup()` leaves the sketch, given what
the preference store holds. -/
def setup (hw : Fpu) (stored : Option float) : State :=
  { update_tod_ms := 0
    update_temp_sensor_ms := 0
    update_page3 := 0
    update_indicator_ms := 0
    display_page := 1
    temp_correction := stored.getD hw.zero
    display_once := true
    eeprom_correction := stored }

/-! ## Observations on a pass -/

/-- The report of `M5.BtnA.wasClicked()` that the test of line 220 sees, once the hold
handler has returned. -/
def clicked_at_220 (pal : Palette) (hw : Fpu) (env : Env) (s : State) : Bool :=
  match hold_handler pal hw env s with
  | none => false
  | some (_, btn, _) => btn.a_clicked

/-- The next-due time of a timed page: `update_tod_ms` for Clock (0),
`update_temp_sensor_ms` for Thermometer (1), `update_page3` for Battery (2). -/
def next_due (page : Int) (s : State) : Nat :=
  if page = 0 then s.update_tod_ms
  else if page = 1 then s.update_temp_sensor_ms
  else s.update_page3

/-- The refresh interval of a timed page. -/
def interval (page : Int) : Nat :=
  if page = 0 then DISPLAY_TOD_INTERVAL_MS
  else if page = 1 then TEMP_MEASURE_INTERVAL_MS
  else PAGE3_UPDATE_MS

/-- The call that marks a render of a page: `display_tod()` for Clock, the temperature
string or the `Not connected` message for Thermometer, the push of the battery sprite at
the end of `disp_batt_symbol` for Battery, `display_splash_screen()` for Splash. -/
def Effect.renders (page : Int) : Effect → Bool
  | Effect.display_tod => page == 0
  | Effect.drawString (Text.temperature _) => page == 1
  | Effect.drawString Text.not_connected => page == 1
  | Effect.pushRotateZoom => page == 2
  | Effect.display_splash_screen => page == 3
  | _ => false

/-- How many times a page was rendered by the given effects. -/
def render_count (page : Int) (out : List Effect) : Nat :=
  (out.filter (Effect.renders page)).length

/-- The text colour in force when the temperature string is drawn: the foreground of the
last `setTextColor` before it. -/
def temperature_text_color : Option Int → List Effect → Option Int
  | _, [] => none
  | _, Effect.setTextColor fg _ :: rest => temperature_text_color (some fg) rest
  | cur, Effect.drawString (Text.temperature _) :: _ => cur
  | cur, _ :: rest => temperature_text_color cur rest

/-- The colour of the first `fillRoundRect`, the fill of the thermometer bar. -/
def bar_fill_color : List Effect → Option Int
  | [] => none
  | Effect.fillRoundRect _ _ _ _ _ color :: _ => some color
  | _ :: rest => bar_fill_color rest

/-! ## Sample inputs -/

/-- No button touched. -/
def idle : Buttons :=
  { a_holding := false, a_pressed := false, a_clicked := false, b_clicked := false,
    pwr_clicked := false }

/-- A short click of button A. -/
def click_a : Buttons := { idle with a_clicked := true }

/-- Button A held down. -/
def hold_a : Buttons := { idle with a_holding := true, a_pressed := true }

/-- A click of button B. -/
def click_b : Buttons := { idle with b_clicked := true }

/-- A click of the power button. -/
def click_pwr : Buttons := { idle with pwr_clicked := true }

/-- A pass in which every `millis()` call reads `now`, the sensor is connected and answers
`temp_c` at its first poll, and the battery is at 80 percent on USB power. -/
def pass (now : Nat) (btn : Buttons) (temp_c : float) : Env :=
  { update0 := btn
    updates := []
    wifi_connected := []
    sntp_reset := []
    time := []
    millis_erase := now
    millis_check := now
    millis_due := now
    millis_ind := now
    is_connected := true
    conversion_complete := [true]
    temp_c := temp_c
    battery_level := 80
    is_charging := false
    vbus := { code := 50 } }

/-- A state on the given page with all timers at the given value. -/
def on_page (page : Int) (due : Nat) : State :=
  { update_tod_ms := due
    update_temp_sensor_ms := due
    update_page3 := due
    update_indicator_ms := 0
    display_page := page
    temp_correction := { code := 0 }
    display_once := true
    eeprom_correction := none }

/-! ## IEEE-754 arithmetic of the target

The sketch keeps `temp_correction` in a `float` and adds the `double` literal `0.2` to it:
the sum is formed in double precision and stored back in single precision, each step
rounded to nearest, ties to even.  Every finite single or double is a whole multiple of
`2^-1074`, so finite values are kept as that multiple. -/

/-- A decoded IEEE-754 datum: not a number, an infinity, or the finite value
`mag * 2^-1074` with its sign. -/
inductive Fp where
  | nan
  | inf (neg : Bool)
  | fin (neg : Bool) (mag : Nat)
deriving DecidableEq, Repr

/-- Number of binary digits of `n`, by halving at most `fuel` times. -/
def bit_length : Nat → Nat → Nat
  | 0, _ => 0
  | fuel + 1, n => if n = 0 then 0 else bit_length fuel (n / 2) + 1

/-- Round a magnitude to `p` significant bits, and to no finer than `2^quantum_log`,
to nearest with ties to even. -/
def round_nearest_even (p quantum_log mag : Nat) : Nat :=
  let sh := max quantum_log (bit_length 2200 mag - p)
  let q := mag / 2 ^ sh
  let r := mag % 2 ^ sh
  let q := if 2 * r > 2 ^ sh ∨ (2 * r = 2 ^ sh ∧ q % 2 = 1) then q + 1 else q
  q * 2 ^ sh

/-- Round a datum into a format of `p` significant bits whose least quantum is
`2^quantum_log` and whose values stay below `2^overflow_log` (units of `2^-1074`). -/
def Fp.round (p quantum_log overflow_log : Nat) : Fp → Fp
  | Fp.fin neg mag =>
    if round_nearest_even p quantum_log mag ≥ 2 ^ overflow_log then Fp.inf neg
    else Fp.fin neg (round_nearest_even p quantum_log mag)
  | x => x

/-- Rounding to double precision: 53 bits, quantum `2^-1074`, overflow at `2^1024`. -/
def to_double (x : Fp) : Fp := Fp.round 53 0 2098 x

/-- Rounding to single precision: 24 bits, quantum `2^-149`, overflow at `2^128`. -/
def to_single (x : Fp) : Fp := Fp.round 24 925 1202 x

/-- The exact sum; a zero sum of opposite signs is `+0`, as under round to nearest. -/
def Fp.add : Fp → Fp → Fp
  | Fp.nan, _ => Fp.nan
  | _, Fp.nan => Fp.nan
  | Fp.inf a, Fp.inf b => if a = b then Fp.inf a else Fp.nan
  | Fp.inf a, Fp.fin _ _ => Fp.inf a
  | Fp.fin _ _, Fp.inf b => Fp.inf b
  | Fp.fin a m, Fp.fin b n =>
    if a = b then Fp.fin a (m + n)
    else if m > n then Fp.fin a (m - n)
    else if n > m then Fp.fin b (n - m)
    else Fp.fin false 0

/-- Sign change. -/
def Fp.neg : Fp → Fp
  | Fp.nan => Fp.nan
  | Fp.inf a => Fp.inf (!a)
  | Fp.fin a m => Fp.fin (!a) m

/-- The datum behind a single-precision bit pattern (sign, 8 exponent bits, 23 fraction
bits), held in `float.code`. -/
def decode32 (x : float) : Fp :=
  let bits := x.code.toNat % 2 ^ 32
  let neg := decide (bits / 2 ^ 31 = 1)
  let e := bits / 2 ^ 23 % 256
  let m := bits % 2 ^ 23
  if e = 255 then (if m = 0 then Fp.inf neg else Fp.nan)
  else if e = 0 then Fp.fin neg (m * 2 ^ 925)
  else Fp.fin neg ((2 ^ 23 + m) * 2 ^ (e - 1) * 2 ^ 925)

/-- The datum behind a double-precision bit pattern (sign, 11 exponent bits, 52 fraction
bits). -/
def decode64 (bits : Nat) : Fp :=
  let neg := decide (bits / 2 ^ 63 % 2 = 1)
  let e := bits / 2 ^ 52 % 2048
  let m := bits % 2 ^ 52
  if e = 2047 then (if m = 0 then Fp.inf neg else Fp.nan)
  else if e = 0 then Fp.fin neg m
  else Fp.fin neg ((2 ^ 52 + m) * 2 ^ (e - 1))

/-- The single-precision bit pattern of a datum that is representable in single
precision. -/
def encode32 : Fp → float
  | Fp.nan => { code := 0x7FC00000 }
  | Fp.inf neg => { code := Int.ofNat ((if neg then 2 ^ 31 else 0) + 0x7F800000) }
  | Fp.fin neg mag =>
    let n := mag / 2 ^ 925
    let sign := if neg then 2 ^ 31 else 0
    if n < 2 ^ 23 then { code := Int.ofNat (sign + n) }
    else
      let sh := bit_length 300 n - 24
      { code := Int.ofNat (sign + (sh * 2 ^ 23 + n / 2 ^ sh)) }

/-- The `double` literal `0.2`: bit pattern `0x3FC999999999999A`. -/
def double_0_2 : Fp := decode64 0x3FC999999999999A

/-- The arithmetic of the target on bit patterns of singles.  `x += 0.2` widens `x`, adds
in double precision and narrows; `x + y` adds two singles; `(int)round(x)` rounds halves
away from zero (not a number and the infinities, for which C leaves the cast undefined,
give 0). -/
def ieee : Fpu where
  zero := { code := 0 }
  add_0_2 := fun x => encode32 (to_single (to_double (Fp.add (decode32 x) double_0_2)))
  sub_0_2 := fun x => encode32 (to_single (to_double (Fp.add (decode32 x) (Fp.neg double_0_2))))
  add := fun x y => encode32 (to_single (Fp.add (decode32 x) (decode32 y)))
  round := fun x =>
    match decode32 x with
    | Fp.fin neg mag =>
      if neg then -Int.ofNat ((mag + 2 ^ 1073) / 2 ^ 1074)
      else Int.ofNat ((mag + 2 ^ 1073) / 2 ^ 1074)
    | _ => 0

/-! ## Calibration clicks -/

/-- A click that changes the offset: button B increases, the power button decreases. -/
inductive Click where
  | increase
  | decrease
deriving DecidableEq, Repr

/-- The button report of a poll in which exactly that click is registered. -/
def Click.poll : Click → Buttons
  | Click.increase => click_b
  | Click.decrease => click_pwr

/-- The offset after a sequence of clicks, each applying the platform's `+= 0.2` or
`-= 0.2` to the offset so far. -/
def apply_clicks (hw : Fpu) : float → List Click → float
  | offset, [] => offset
  | offset, Click.increase :: later => apply_clicks hw (hw.add_0_2 offset) later
  | offset, Click.decrease :: later => apply_clicks hw (hw.sub_0_2 offset) later

/-- A held button A on the Thermometer page, then its release, the given clicks one per
poll, the click of A that ends the calibration, and the closing button update. -/
def calibration_env (cs : List Click) : Env :=
  { pass 0 hold_a { code := 0 } with
    updates := idle :: (cs.map Click.poll ++ [click_a, idle]) }

/-! ## Colour rules: theorems -/

/-- C2: `temp_to_color` is defined on every integer and follows the table at every
boundary: -50..15 gives blue, 16..19 sky-blue, 20..22 light-orange
(`color24to16(0xff944d)`), 23..25 orange, 26..150 red, and every value above 150 the
dark-grey fallback; the result is always one of these six colours; in particular
15 gives blue, 16 sky-blue, 22 light-orange, 23 and 25 orange, 26 red. -/
theorem temp_to_color_table (pal : Palette) (temp : Int) :
    (-50 ≤ temp → temp ≤ 15 → temp_to_color pal temp = pal.TFT_BLUE) ∧
    (16 ≤ temp → temp ≤ 19 → temp_to_color pal temp = pal.TFT_SKYBLUE) ∧
    (20 ≤ temp → temp ≤ 22 → temp_to_color pal temp = pal.color24to16 0xff944d) ∧
    (23 ≤ temp → temp ≤ 25 → temp_to_color pal temp = pal.TFT_ORANGE) ∧
    (26 ≤ temp → temp ≤ 150 → temp_to_color pal temp = pal.TFT_RED) ∧
    (150 < temp → temp_to_color pal temp = pal.TFT_DARKGREY) ∧
    (temp_to_color pal temp = pal.TFT_BLUE ∨ temp_to_color pal temp = pal.TFT_SKYBLUE ∨
      temp_to_color pal temp = pal.color24to16 0xff944d ∨
      temp_to_color pal temp = pal.TFT_ORANGE ∨ temp_to_color pal temp = pal.TFT_RED ∨
      temp_to_color pal temp = pal.TFT_DARKGREY) ∧
    temp_to_color pal 15 = pal.TFT_BLUE ∧ temp_to_color pal 16 = pal.TFT_SKYBLUE ∧
    temp_to_color pal 22 = pal.color24to16 0xff944d ∧ temp_to_color pal 23 = pal.TFT_ORANGE ∧
    temp_to_color pal 25 = pal.TFT_ORANGE ∧ temp_to_color pal 26 = pal.TFT_RED := by
  refine ⟨?_, ?_, ?_, ?_, ?_, ?_, ?_, ?_, ?_, ?_, ?_, ?_, ?_⟩
  · intro h1 h2; unfold temp_to_color; split_ifs <;> first | rfl | omega
  · intro h1 h2; unfold temp_to_color; split_ifs <;> first | rfl | omega
  · intro h1 h2; unfold temp_to_color; split_ifs <;> first | rfl | omega
  · intro h1 h2; unfold temp_to_color; split_ifs <;> first | rfl | omega
  · intro h1 h2; unfold temp_to_color; split_ifs <;> first | rfl | omega
  · intro h1; unfold temp_to_color; split_ifs <;> first | rfl | omega
  · unfold temp_to_color; split_ifs <;> simp
  all_goals simp [temp_to_color]

/-- Witness of C2 at the six boundary values and above the table, for the shipped colours. -/
theorem temp_to_color_table_witness :
    temp_to_color m5gfx 15 = 0x001F ∧ temp_to_color m5gfx 16 = 0x867D ∧
    temp_to_color m5gfx 22 = 0xFCA9 ∧ temp_to_color m5gfx 23 = 0xFDA0 ∧
    temp_to_color m5gfx 150 = 0xF800 ∧ temp_to_color m5gfx 151 = 0x7BEF :=
  ⟨(temp_to_color_table m5gfx 15).1 (by decide) (by decide),
   (temp_to_color_table m5gfx 16).2.1 (by decide) (by decide),
   (temp_to_color_table m5gfx 22).2.2.1 (by decide) (by decide),
   (temp_to_color_table m5gfx 23).2.2.2.1 (by decide) (by decide),
   (temp_to_color_table m5gfx 150).2.2.2.2.1 (by decide) (by decide),
   (temp_to_color_table m5gfx 151).2.2.2.2.2.1 (by decide)⟩

/-- C3 fails below -50: at -51 the `switch` takes its `default` branch, so the result is
the dark-grey fallback and not blue. -/
theorem temp_to_color_below_table_not_blue :
    (-51 : Int) ≤ 15 ∧ temp_to_color m5gfx (-51) = m5gfx.TFT_DARKGREY ∧
    temp_to_color m5gfx (-51) ≠ m5gfx.TFT_BLUE := by
  decide

/-- C3, amended: every temperature from -50 to 15 gives blue, and every temperature
below -50 gives the dark-grey fallback. -/
theorem temp_to_color_low (pal : Palette) (temp : Int) :
    (-50 ≤ temp → temp ≤ 15 → temp_to_color pal temp = pal.TFT_BLUE) ∧
    (temp < -50 → temp_to_color pal temp = pal.TFT_DARKGREY) := by
  constructor
  · intro h1 h2; unfold temp_to_color; split_ifs <;> first | rfl | omega
  · intro h1; unfold temp_to_color; split_ifs <;> first | rfl | omega

/-- Witness of amended C3 at both ends of the blue range and just below it. -/
theorem temp_to_color_low_witness :
    temp_to_color m5gfx (-50) = 0x001F ∧ temp_to_color m5gfx 15 = 0x001F ∧
    temp_to_color m5gfx (-51) = 0x7BEF :=
  ⟨(temp_to_color_low m5gfx (-50)).1 (by decide) (by decide),
   (temp_to_color_low m5gfx 15).1 (by decide) (by decide),
   (temp_to_color_low m5gfx (-51)).2 (by decide)⟩

/-- C4: for every battery value, `batt_percent_to_color` gives red below 20, orange from
20 to 49 and dark-green from 50 on (19 red, 20 and 49 orange, 50 and 100 dark-green), each
as a `uint16_t`; the white placeholder is always overwritten, so the result is one of the
three and, when white differs from them, never white. -/
theorem batt_percent_to_color_table (pal : Palette) (batt : Int) :
    (batt < 20 → batt_percent_to_color pal batt = uint16_t pal.TFT_RED) ∧
    (20 ≤ batt → batt ≤ 49 → batt_percent_to_color pal batt = uint16_t pal.TFT_ORANGE) ∧
    (50 ≤ batt → batt_percent_to_color pal batt = uint16_t pal.TFT_DARKGREEN) ∧
    batt_percent_to_color pal 19 = uint16_t pal.TFT_RED ∧
    batt_percent_to_color pal 20 = uint16_t pal.TFT_ORANGE ∧
    batt_percent_to_color pal 49 = uint16_t pal.TFT_ORANGE ∧
    batt_percent_to_color pal 50 = uint16_t pal.TFT_DARKGREEN ∧
    batt_percent_to_color pal 100 = uint16_t pal.TFT_DARKGREEN ∧
    (batt_percent_to_color pal batt = uint16_t pal.TFT_RED ∨
      batt_percent_to_color pal batt = uint16_t pal.TFT_ORANGE ∨
      batt_percent_to_color pal batt = uint16_t pal.TFT_DARKGREEN) ∧
    (uint16_t pal.TFT_WHITE ≠ uint16_t pal.TFT_RED →
      uint16_t pal.TFT_WHITE ≠ uint16_t pal.TFT_ORANGE →
      uint16_t pal.TFT_WHITE ≠ uint16_t pal.TFT_DARKGREEN →
      batt_percent_to_color pal batt ≠ uint16_t pal.TFT_WHITE) := by
  refine ⟨?_, ?_, ?_, ?_, ?_, ?_, ?_, ?_, ?_, ?_⟩
  · intro h; unfold batt_percent_to_color; simp only; split_ifs; rfl
  · intro h1 h2; unfold batt_percent_to_color; simp only; split_ifs <;> first | rfl | omega
  · intro h; unfold batt_percent_to_color; simp only; split_ifs <;> first | rfl | omega
  · simp [batt_percent_to_color]
  · simp [batt_percent_to_color]
  · simp [batt_percent_to_color]
  · simp [batt_percent_to_color]
  · simp [batt_percent_to_color]
  · by_cases h1 : batt < 20
    · left; unfold batt_percent_to_color; simp only; split_ifs; rfl
    · by_cases h2 : batt < 50
      · right; left; unfold batt_percent_to_color; simp only; split_ifs <;> first | rfl | omega
      · right; right; unfold batt_percent_to_color; simp only
        split_ifs <;> first | rfl | omega
  · intro hr ho hg
    unfold batt_percent_to_color; simp only
    split_ifs
    · exact fun h => hr h.symm
    · exact fun h => ho h.symm
    · exact fun h => hg h.symm
    · omega

/-- Witness of C4 at the five values of the spec and for the never-white part. -/
theorem batt_percent_to_color_table_witness :
    batt_percent_to_color m5gfx 19 = 0xF800 ∧ batt_percent_to_color m5gfx 20 = 0xFDA0 ∧
    batt_percent_to_color m5gfx 49 = 0xFDA0 ∧ batt_percent_to_color m5gfx 50 = 0x03E0 ∧
    batt_percent_to_color m5gfx 100 = 0x03E0 ∧ batt_percent_to_color m5gfx (-7) ≠ 0xFFFF :=
  ⟨(batt_percent_to_color_table m5gfx 19).1 (by decide),
   (batt_percent_to_color_table m5gfx 20).2.1 (by decide) (by decide),
   (batt_percent_to_color_table m5gfx 49).2.1 (by decide) (by decide),
   (batt_percent_to_color_table m5gfx 50).2.2.1 (by decide),
   (batt_percent_to_color_table m5gfx 100).2.2.1 (by decide),
   (batt_percent_to_color_table m5gfx (-7)).2.2.2.2.2.2.2.2.2 (by decide) (by decide) (by decide)⟩

/-! ## Thermometer bar: theorems -/

/-- The bar width in floor division, which agrees with C division on the clamped range. -/
theorem thermom_bar_width_eq (pal : Palette) (t : Int) :
    (thermom_bar pal t).bar_width = (clamp t 10 40 - 10) * 200 / 30 := by
  have hd : (thermom_bar pal t).disp_temp = clamp t 10 40 := by
    unfold thermom_bar clamp
    simp only
    split_ifs <;> omega
  have hw : (thermom_bar pal t).bar_width =
      Int.tdiv (((thermom_bar pal t).disp_temp - 10) * 200) 30 := rfl
  rw [hw, hd]
  have hc : 10 ≤ clamp t 10 40 := by unfold clamp; omega
  exact Int.tdiv_eq_ediv (by omega) (by decide)

/-- C5: for every rounded temperature `t` the bar width of the Thermometer page is
`(clamp(t,10,40) - 10) * 200 / 30` in truncating integer division; `t = 10` gives 0,
`t = 40` gives the sprite width 200, every `t < 10` gives what 10 gives, every `t > 40`
what 40 gives, and the width never decreases when `t` grows. -/
theorem thermom_bar_width_linear (pal : Palette) (t : Int) :
    (thermom_bar pal t).bar_width = Int.tdiv ((clamp t 10 40 - 10) * 200) 30 ∧
    (thermom_bar pal 10).bar_width = 0 ∧
    (thermom_bar pal 40).bar_width = thermom_spr_wdth ∧
    (thermom_bar pal 40).bar_width = 200 ∧
    (t < 10 → (thermom_bar pal t).bar_width = (thermom_bar pal 10).bar_width) ∧
    (t > 40 → (thermom_bar pal t).bar_width = (thermom_bar pal 40).bar_width) ∧
    (∀ u : Int, t ≤ u → (thermom_bar pal t).bar_width ≤ (thermom_bar pal u).bar_width) := by
  have hc : 10 ≤ clamp t 10 40 := by unfold clamp; omega
  refine ⟨?_, ?_, ?_, ?_, ?_, ?_, ?_⟩
  · rw [thermom_bar_width_eq, Int.tdiv_eq_ediv (by omega) (by decide)]
  · rw [thermom_bar_width_eq]; decide
  · rw [thermom_bar_width_eq]; decide
  · rw [thermom_bar_width_eq]; decide
  · intro h; rw [thermom_bar_width_eq, thermom_bar_width_eq]; unfold clamp; omega
  · intro h; rw [thermom_bar_width_eq, thermom_bar_width_eq]; unfold clamp; omega
  · intro u h; rw [thermom_bar_width_eq, thermom_bar_width_eq]; unfold clamp; omega

/-- Witness of C5: 5 degrees draw what 10 do, 50 what 40 do, and 25 no more than 26. -/
theorem thermom_bar_width_linear_witness :
    (thermom_bar m5gfx 5).bar_width = (thermom_bar m5gfx 10).bar_width ∧
    (thermom_bar m5gfx 50).bar_width = (thermom_bar m5gfx 40).bar_width ∧
    (thermom_bar m5gfx 25).bar_width ≤ (thermom_bar m5gfx 26).bar_width :=
  ⟨(thermom_bar_width_linear m5gfx 5).2.2.2.2.1 (by decide),
   (thermom_bar_width_linear m5gfx 50).2.2.2.2.2.1 (by decide),
   (thermom_bar_width_linear m5gfx 25).2.2.2.2.2.2 26 (by decide)⟩

/-! ## Page controller: lemmas -/

/-- A busy-wait returns when some recorded poll meets its exit condition. -/
theorem poll_until_of_mem {α : Type} (done : α → Bool) (l : List α)
    (h : ∃ a ∈ l, done a = true) : ∃ a rest, poll_until done l = some (a, rest) := by
  induction l with
  | nil => obtain ⟨a, ha, _⟩ := h; cases ha
  | cons b l ih =>
    unfold poll_until
    by_cases hb : done b = true
    · exact ⟨b, l, by simp [hb]⟩
    · obtain ⟨a, ha, hd⟩ := h
      have hmem : a ∈ l := by
        rcases List.mem_cons.mp ha with rfl | h'
        · exact absurd hd hb
        · exact h'
      obtain ⟨a', rest, h'⟩ := ih ⟨a, hmem, hd⟩
      exact ⟨a', rest, by simp [hb, h']⟩

/-- What the calibration branch leaves behind when it returns: page 1, the timers and
`display_once` as they were, and the stored value equal to the offset in memory, written
by an `eeprom.putFloat` of that very value. -/
theorem calibrate_page (pal : Palette) (hw : Fpu) (env : Env) (s s' : State) (btn : Buttons)
    (out : List Effect) (h : calibrate pal hw env s = some (s', btn, out)) :
    s'.display_page = 1 ∧ s'.update_tod_ms = s.update_tod_ms ∧
    s'.update_temp_sensor_ms = s.update_temp_sensor_ms ∧ s'.update_page3 = s.update_page3 ∧
    s'.update_indicator_ms = s.update_indicator_ms ∧ s'.display_once = s.display_once ∧
    s'.eeprom_correction = some s'.temp_correction ∧
    Effect.eeprom_putFloat s'.temp_correction ∈ out := by
  unfold calibrate at h
  split at h
  · cases h
  · split at h
    · cases h
    · split at h
      · cases h
      · simp only [Option.some.injEq, Prod.mk.injEq] at h
        obtain ⟨rfl, _, rfl⟩ := h
        simp

/-- The hold handler, when it returns, has kept the page, the four timers and
`display_once`. -/
theorem hold_handler_page (pal : Palette) (hw : Fpu) (env : Env) (s s' : State) (btn : Buttons)
    (out : List Effect) (h : hold_handler pal hw env s = some (s', btn, out)) :
    s'.display_page = s.display_page ∧ s'.update_tod_ms = s.update_tod_ms ∧
    s'.update_temp_sensor_ms = s.update_temp_sensor_ms ∧ s'.update_page3 = s.update_page3 ∧
    s'.update_indicator_ms = s.update_indicator_ms ∧ s'.display_once = s.display_once := by
  unfold hold_handler at h
  split_ifs at h with h0 h1 h2
  · split at h
    · cases h
    · simp only [Option.some.injEq, Prod.mk.injEq] at h
      obtain ⟨rfl, _, _⟩ := h
      simp [h1]
  · have := calibrate_page pal hw env s s' btn out h
    simp [this, h2]
  · simp only [Option.some.injEq, Prod.mk.injEq] at h
    obtain ⟨rfl, _, _⟩ := h
    simp
  · simp only [Option.some.injEq, Prod.mk.injEq] at h
    obtain ⟨rfl, _, _⟩ := h
    simp

/-- The click handler turns a page in 0..3 into its successor modulo 4. -/
theorem click_handler_page (s : State) (h0 : 0 ≤ s.display_page) (h3 : s.display_page ≤ 3) :
    (click_handler s).1.display_page = (s.display_page + 1) % 4 := by
  unfold click_handler
  simp only
  split_ifs <;> simp_all <;> omega

/-- The page switch never assigns `display_page`. -/
theorem page_switch_page (pal : Palette) (hw : Fpu) (env : Env) (s s' : State)
    (out : List Effect) (h : page_switch pal hw env s = some (s', out)) :
    s'.display_page = s.display_page := by
  unfold page_switch at h
  simp only at h
  split_ifs at h
  all_goals first
    | (simp only [Option.some.injEq, Prod.mk.injEq] at h; obtain ⟨rfl, _⟩ := h; rfl)
    | (split at h
       · cases h
       · simp only [Option.some.injEq, Prod.mk.injEq] at h; obtain ⟨rfl, _⟩ := h; rfl)

/-- The Thermometer drawing returns when the sensor is absent or its conversion completes. -/
theorem draw_thermometer_returns (pal : Palette) (hw : Fpu) (env : Env) (tc : float)
    (hconv : env.is_connected = true → true ∈ env.conversion_complete) :
    ∃ drawn, draw_thermometer pal hw env tc = some drawn := by
  unfold draw_thermometer
  by_cases hc : env.is_connected = true
  · obtain ⟨a, rest, hp⟩ :=
      poll_until_of_mem (fun complete => complete) env.conversion_complete ⟨true, hconv hc, rfl⟩
    simp [hc, hp]
  · simp [hc]

/-- The page switch returns when the sensor is absent or its conversion completes. -/
theorem page_switch_returns (pal : Palette) (hw : Fpu) (env : Env) (s : State)
    (hconv : env.is_connected = true → true ∈ env.conversion_complete) :
    ∃ s' out, page_switch pal hw env s = some (s', out) := by
  unfold page_switch
  simp only
  split_ifs
  all_goals first
    | exact ⟨_, _, rfl⟩
    | (obtain ⟨drawn, hd⟩ := draw_thermometer_returns pal hw env s.temp_correction hconv
       rw [hd]
       exact ⟨_, _, rfl⟩)

/-- A pass that sees a click at line 220 and returns has advanced the page by one modulo 4. -/
theorem loop_click_page (pal : Palette) (hw : Fpu) (env : Env) (s s' : State) (out : List Effect)
    (h0 : 0 ≤ s.display_page) (h3 : s.display_page ≤ 3)
    (hclick : clicked_at_220 pal hw env s = true) (h : loop pal hw env s = some (s', out)) :
    s'.display_page = (s.display_page + 1) % 4 := by
  unfold loop at h
  unfold clicked_at_220 at hclick
  cases hh : hold_handler pal hw env s with
  | none => rw [hh] at hclick; cases hclick
  | some r =>
    obtain ⟨s1, btn, held⟩ := r
    rw [hh] at h hclick
    simp only at h hclick
    rw [if_pos hclick] at h
    have hp1 := (hold_handler_page pal hw env s s1 btn held hh).1
    cases hs : page_switch pal hw env (click_handler s1).1 with
    | none => rw [hs] at h; cases h
    | some r2 =>
      obtain ⟨s3, drawn⟩ := r2
      rw [hs] at h
      simp only [Option.some.injEq, Prod.mk.injEq] at h
      obtain ⟨rfl, _⟩ := h
      rw [page_switch_page pal hw env _ _ _ hs,
        click_handler_page s1 (by omega) (by omega), hp1]

/-- A pass that sees a click at line 220 returns when the sensor is absent or its
conversion completes. -/
theorem loop_click_returns (pal : Palette) (hw : Fpu) (env : Env) (s : State)
    (hclick : clicked_at_220 pal hw env s = true)
    (hconv : env.is_connected = true → true ∈ env.conversion_complete) :
    ∃ s' out, loop pal hw env s = some (s', out) := by
  unfold loop
  unfold clicked_at_220 at hclick
  cases hh : hold_handler pal hw env s with
  | none => rw [hh] at hclick; cases hclick
  | some r =>
    obtain ⟨s1, btn, held⟩ := r
    simp only
    obtain ⟨s3, drawn, hs⟩ := page_switch_returns pal hw env
      (if btn.a_clicked = true then click_handler s1 else (s1, [])).1 hconv
    rw [hs]
    exact ⟨_, _, rfl⟩

/-- The Thermometer drawing holds exactly one render mark of page 1, whichever branch ran. -/
theorem draw_thermometer_render_count (pal : Palette) (hw : Fpu) (env : Env) (tc : float)
    (drawn : List Effect) (h : draw_thermometer pal hw env tc = some drawn) :
    render_count 1 drawn = 1 := by
  unfold draw_thermometer at h
  split_ifs at h
  · split at h
    · cases h
    · simp only [Option.some.injEq] at h
      subst h
      simp [render_count, Effect.renders]
  · simp only [Option.some.injEq] at h
    subst h
    simp [render_count, Effect.renders]

/-- The Battery drawing holds exactly one render mark of page 2. -/
theorem draw_battery_render_count (pal : Palette) (env : Env) :
    render_count 2 (draw_battery pal env) = 1 := by
  unfold draw_battery disp_batt_symbol
  by_cases hc : env.is_charging = true <;> by_cases hb : env.battery_level = 100 <;>
    simp [render_count, Effect.renders, hc, hb]

/-- Erasing the indicator renders no page. -/
theorem erase_indicator_render_count (pal : Palette) (env : Env) (s : State) (page : Int) :
    render_count page (erase_indicator pal env s) = 0 := by
  unfold erase_indicator
  split_ifs <;> simp [render_count, Effect.renders]

/-- Render marks add up over concatenated effects. -/
theorem render_count_append (page : Int) (a b : List Effect) :
    render_count page (a ++ b) = render_count page a + render_count page b := by
  simp [render_count]

/-- Before the next-due time the page switch of a timed page does nothing. -/
theorem page_switch_not_due (pal : Palette) (hw : Fpu) (env : Env) (s : State)
    (hp : s.display_page = 0 ∨ s.display_page = 1 ∨ s.display_page = 2)
    (h : env.millis_check < next_due s.display_page s) :
    page_switch pal hw env s = some (s, []) := by
  unfold next_due at h
  unfold page_switch
  rcases hp with hp | hp | hp
  · rw [hp] at h
    simp only [if_true] at h
    simp only [hp, if_true]
    rw [if_neg (by omega)]
  · rw [hp] at h
    simp only [show ¬ ((1 : Int) = 0) by decide, if_false, if_true] at h
    simp only [hp, show ¬ ((1 : Int) = 0) by decide, if_false, if_true]
    rw [if_neg (by omega)]
  · rw [hp] at h
    simp only [show ¬ ((2 : Int) = 0) by decide, show ¬ ((2 : Int) = 1) by decide, if_false] at h
    simp only [hp, show ¬ ((2 : Int) = 0) by decide, show ¬ ((2 : Int) = 1) by decide,
      if_false, if_true]
    rw [if_neg (by omega)]

/-- From the next-due time on the page switch of a timed page renders once and re-arms
the timer of that page. -/
theorem page_switch_due (pal : Palette) (hw : Fpu) (env : Env) (s : State)
    (hp : s.display_page = 0 ∨ s.display_page = 1 ∨ s.display_page = 2)
    (h : next_due s.display_page s ≤ env.millis_check)
    (hconv : s.display_page = 1 → env.is_connected = true → true ∈ env.conversion_complete) :
    ∃ s' out, page_switch pal hw env s = some (s', out) ∧
      render_count s.display_page out = 1 ∧
      next_due s.display_page s' = (env.millis_due + interval s.display_page) % 2 ^ 32 ∧
      s'.display_page = s.display_page := by
  unfold next_due at h
  unfold page_switch
  rcases hp with hp | hp | hp
  · rw [hp] at h
    simp only [if_true] at h
    simp only [hp, if_true]
    rw [if_pos (by omega)]
    refine ⟨_, _, rfl, ?_, ?_, ?_⟩
    · simp [render_count, Effect.renders]
    · simp [next_due, interval, ULONG_MOD]
    · simp [hp]
  · rw [hp] at h
    simp only [show ¬ ((1 : Int) = 0) by decide, if_false, if_true] at h
    simp only [hp, show ¬ ((1 : Int) = 0) by decide, if_false, if_true]
    rw [if_pos (by omega)]
    obtain ⟨drawn, hd⟩ := draw_thermometer_returns pal hw env s.temp_correction (hconv hp)
    rw [hd]
    refine ⟨_, _, rfl, ?_, ?_, ?_⟩
    · have := draw_thermometer_render_count pal hw env _ drawn hd
      simpa [render_count, Effect.renders] using this
    · simp [next_due, interval, ULONG_MOD]
    · simp [hp]
  · rw [hp] at h
    simp only [show ¬ ((2 : Int) = 0) by decide, show ¬ ((2 : Int) = 1) by decide, if_false] at h
    simp only [hp, show ¬ ((2 : Int) = 0) by decide, show ¬ ((2 : Int) = 1) by decide,
      if_false, if_true]
    rw [if_pos (by omega)]
    refine ⟨_, _, rfl, ?_, ?_, ?_⟩
    · have := draw_battery_render_count pal env
      simpa [render_count, Effect.renders] using this
    · simp [next_due, interval, ULONG_MOD]
    · simp [hp]

/-- Without hold and click a pass is the indicator erase followed by the page switch. -/
theorem loop_idle (pal : Palette) (hw : Fpu) (env : Env) (s : State)
    (hhold : env.update0.a_holding = false) (hclick : env.update0.a_clicked = false) :
    loop pal hw env s =
      match page_switch pal hw env s with
      | none => none
      | some (s3, drawn) => some (s3, erase_indicator pal env s ++ drawn) := by
  unfold loop hold_handler
  simp [hhold, hclick]

/-- The wait for the time sync returns when some recorded poll reports the sync done. -/
theorem sntp_wait_of_mem (l : List Bool) (h : false ∈ l) : ∃ marks, sntp_wait l = some marks := by
  induction l with
  | nil => cases h
  | cons b l ih =>
    unfold sntp_wait
    cases b with
    | false => exact ⟨[], by simp⟩
    | true =>
      have hmem : false ∈ l := by
        rcases List.mem_cons.mp h with h' | h'
        · cases h'
        · exact h'
      obtain ⟨marks, hm⟩ := ih hmem
      exact ⟨Effect.drawString Text.star :: marks, by simp [hm]⟩

/-- The clock sync returns when each of its three busy-waits meets its exit condition. -/
theorem sync_rtc_to_ntp_returns (env : Env) (hwifi : true ∈ env.wifi_connected)
    (hsntp : false ∈ env.sntp_reset)
    (htime : ∃ t0 later now, env.time = t0 :: later ∧ now ∈ later ∧ t0 + 1 ≤ now) :
    ∃ out, sync_rtc_to_ntp env = some out := by
  obtain ⟨t0, later, now, ht, hnow, hle⟩ := htime
  obtain ⟨a, rest, hw⟩ :=
    poll_until_of_mem (fun connected => connected) env.wifi_connected ⟨true, hwifi, rfl⟩
  obtain ⟨marks, hm⟩ := sntp_wait_of_mem env.sntp_reset hsntp
  obtain ⟨a', rest', hp⟩ :=
    poll_until_of_mem (fun now => !decide (t0 + 1 > now)) later
      ⟨now, hnow, by simp only [gt_iff_lt, Bool.not_eq_true', decide_eq_false_iff_not]; omega⟩
  unfold sync_rtc_to_ntp
  rw [hw]
  simp only
  rw [hm]
  simp only
  rw [ht]
  simp only
  rw [hp]
  exact ⟨_, rfl⟩

/-- The calibration loop ends at the first poll in which button A reports a click, and
leaves the polls after it. -/
theorem calibrate_polls_returns (hw : Fpu) (l : List Buttons) (tc : float) (exit : Buttons)
    (rest : List Buttons) (h : poll_until (fun b => b.a_clicked) l = some (exit, rest)) :
    ∃ tc' drawn, calibrate_polls hw tc l = some (tc', drawn, rest) := by
  induction l generalizing tc with
  | nil => simp [poll_until] at h
  | cons b l ih =>
    unfold poll_until at h
    unfold calibrate_polls
    by_cases hb : b.a_clicked = true
    · simp only [hb, if_true, Option.some.injEq, Prod.mk.injEq] at h
      obtain ⟨_, rfl⟩ := h
      simp only [hb, if_true]
      exact ⟨_, _, rfl⟩
    · simp only [hb] at h
      simp only [hb]
      obtain ⟨tc', drawn, hc⟩ := ih _ h
      simp only [Bool.false_eq_true, if_false]
      rw [hc]
      exact ⟨_, _, rfl⟩

/-- The bar colour is `temp_to_color` of the clamped value. -/
theorem thermom_bar_color_eq (pal : Palette) (t : Int) :
    (thermom_bar pal t).bar_color = temp_to_color pal (clamp t 10 40) := by
  have hd : (thermom_bar pal t).disp_temp = clamp t 10 40 := by
    unfold thermom_bar clamp
    simp only
    split_ifs <;> omega
  have hc : (thermom_bar pal t).bar_color = temp_to_color pal (thermom_bar pal t).disp_temp := rfl
  rw [hc, hd]

/-- Entering Clock, Thermometer or Splash by a click renders the page in the same pass:
for a state on a page in 0..3 at line 220, whatever its timers, the page switch that
follows the click handler renders the new page exactly once, unless the new page is
Battery. -/
theorem page_rendered_on_entry (pal : Palette) (hw : Fpu) (env : Env) (s : State)
    (h0 : 0 ≤ s.display_page) (h3 : s.display_page ≤ 3) (hb : s.display_page ≠ 1)
    (hconv : env.is_connected = true → true ∈ env.conversion_complete) :
    ∃ s' out, page_switch pal hw env (click_handler s).1 = some (s', out) ∧
      render_count (click_handler s).1.display_page out = 1 := by
  have hpage := click_handler_page s h0 h3
  have hcases : s.display_page = 0 ∨ s.display_page = 2 ∨ s.display_page = 3 := by omega
  rcases hcases with hp | hp | hp
  · have h1 : (click_handler s).1.display_page = 1 := by rw [hpage, hp]; decide
    have hdue : next_due (click_handler s).1.display_page (click_handler s).1 ≤
        env.millis_check := by
      rw [h1]
      simp [next_due, click_handler, hp]
    obtain ⟨s', out, hs, hr, _, _⟩ :=
      page_switch_due pal hw env (click_handler s).1 (Or.inr (Or.inl h1)) hdue (fun _ => hconv)
    exact ⟨s', out, hs, hr⟩
  · have h1 : (click_handler s).1.display_page = 3 := by rw [hpage, hp]; decide
    have hd : (click_handler s).1.display_once = false := by
      simp [click_handler, hp]
    rw [h1]
    unfold page_switch
    simp only [h1, hd]
    refine ⟨_, _, rfl, ?_⟩
    simp [render_count, Effect.renders]
  · have h1 : (click_handler s).1.display_page = 0 := by rw [hpage, hp]; decide
    have hdue : next_due (click_handler s).1.display_page (click_handler s).1 ≤
        env.millis_check := by
      rw [h1]
      simp [next_due, click_handler, hp]
    obtain ⟨s', out, hs, hr, _, _⟩ :=
      page_switch_due pal hw env (click_handler s).1 (Or.inl h1) hdue
        (fun h => absurd h (by rw [h1]; decide))
    exact ⟨s', out, hs, hr⟩

/-! ## Page controller: theorems -/

/-- C1: from every page P in 0..3, a pass of `loop()` in which button A reports a short
click ends with `display_page = (P + 1) mod 4`, and the pass does end once the sensor, if
connected, completes its conversion; four such passes in a row lead back to P. -/
theorem click_advances_page (pal : Palette) (hw : Fpu) (env : Env) (s : State)
    (h0 : 0 ≤ s.display_page) (h3 : s.display_page ≤ 3)
    (hclick : clicked_at_220 pal hw env s = true) :
    (∀ s' out, loop pal hw env s = some (s', out) →
      s'.display_page = (s.display_page + 1) % 4) ∧
    ((env.is_connected = true → true ∈ env.conversion_complete) →
      ∃ s' out, loop pal hw env s = some (s', out) ∧
        s'.display_page = (s.display_page + 1) % 4) ∧
    (∀ (e2 e3 e4 : Env) (s1 s2 s3 s4 : State) (o1 o2 o3 o4 : List Effect),
      loop pal hw env s = some (s1, o1) →
      clicked_at_220 pal hw e2 s1 = true → loop pal hw e2 s1 = some (s2, o2) →
      clicked_at_220 pal hw e3 s2 = true → loop pal hw e3 s2 = some (s3, o3) →
      clicked_at_220 pal hw e4 s3 = true → loop pal hw e4 s3 = some (s4, o4) →
      s4.display_page = s.display_page) := by
  refine ⟨?_, ?_, ?_⟩
  · intro s' out h
    exact loop_click_page pal hw env s s' out h0 h3 hclick h
  · intro hconv
    obtain ⟨s', out, h⟩ := loop_click_returns pal hw env s hclick hconv
    exact ⟨s', out, h, loop_click_page pal hw env s s' out h0 h3 hclick h⟩
  · intro e2 e3 e4 s1 s2 s3 s4 o1 o2 o3 o4 l1 c2 l2 c3 l3 c4 l4
    have p1 := loop_click_page pal hw env s s1 o1 h0 h3 hclick l1
    have p2 := loop_click_page pal hw e2 s1 s2 o2 (by omega) (by omega) c2 l2
    have p3 := loop_click_page pal hw e3 s2 s3 o3 (by omega) (by omega) c3 l3
    have p4 := loop_click_page pal hw e4 s3 s4 o4 (by omega) (by omega) c4 l4
    omega

/-- Witness of C1: a click on the Splash page (3) at 1000 ms leads to the Clock page (0),
and clicks at 1000, 2000, 3000 and 4000 ms lead from Splash back to Splash. -/
theorem click_advances_page_witness :
    (∃ s' out, loop m5gfx tenths (pass 1000 click_a { code := 250 }) (on_page 3 0) = some (s', out) ∧
      s'.display_page = 0) ∧
    (∃ s1 o1 s2 o2 s3 o3 s4 o4,
      loop m5gfx tenths (pass 1000 click_a { code := 250 }) (on_page 3 0) = some (s1, o1) ∧
      loop m5gfx tenths (pass 2000 click_a { code := 250 }) s1 = some (s2, o2) ∧
      loop m5gfx tenths (pass 3000 click_a { code := 250 }) s2 = some (s3, o3) ∧
      loop m5gfx tenths (pass 4000 click_a { code := 250 }) s3 = some (s4, o4) ∧
      s4.display_page = 3) :=
  ⟨(click_advances_page m5gfx tenths (pass 1000 click_a { code := 250 }) (on_page 3 0)
      (by decide) (by decide) (by decide)).2.1 (by decide),
   ⟨_, _, _, _, _, _, _, _, rfl, rfl, rfl, rfl,
    (click_advances_page m5gfx tenths (pass 1000 click_a { code := 250 }) (on_page 3 0)
      (by decide) (by decide) (by decide)).2.2
      (pass 2000 click_a { code := 250 }) (pass 3000 click_a { code := 250 })
      (pass 4000 click_a { code := 250 }) _ _ _ _ _ _ _ _ rfl rfl rfl rfl rfl rfl rfl⟩⟩

/-- C6: on each timed page (Clock 1000 ms, Thermometer 10000 ms, Battery 5000 ms) the
refresh test of `loop()` does nothing and leaves the next-due time alone while `millis()`
is below the next-due time; from the next-due time on it renders the page exactly once and
sets the next-due time to `millis() + T` modulo `2^32`, with the sensor connected (and
completing its conversion) or not.  The same holds for the whole pass of `loop()` when
button A reports neither a hold nor a click. -/
theorem refresh_gating (pal : Palette) (hw : Fpu) (env : Env) (s : State)
    (hp : s.display_page = 0 ∨ s.display_page = 1 ∨ s.display_page = 2) :
    (interval 0 = 1000 ∧ interval 1 = 10000 ∧ interval 2 = 5000) ∧
    (env.millis_check < next_due s.display_page s →
      page_switch pal hw env s = some (s, []) ∧
      (env.update0.a_holding = false → env.update0.a_clicked = false →
        ∃ out, loop pal hw env s = some (s, out) ∧ render_count s.display_page out = 0)) ∧
    (next_due s.display_page s ≤ env.millis_check →
      (s.display_page = 1 → env.is_connected = true → true ∈ env.conversion_complete) →
      (∃ s' out, page_switch pal hw env s = some (s', out) ∧
        render_count s.display_page out = 1 ∧
        next_due s.display_page s' = (env.millis_due + interval s.display_page) % 2 ^ 32) ∧
      (env.update0.a_holding = false → env.update0.a_clicked = false →
        ∃ s' out, loop pal hw env s = some (s', out) ∧
          render_count s.display_page out = 1 ∧
          next_due s.display_page s' = (env.millis_due + interval s.display_page) % 2 ^ 32)) := by
  refine ⟨by decide, ?_, ?_⟩
  · intro h
    have hs := page_switch_not_due pal hw env s hp h
    refine ⟨hs, ?_⟩
    intro hhold hclick
    rw [loop_idle pal hw env s hhold hclick, hs]
    refine ⟨_, rfl, ?_⟩
    rw [render_count_append, erase_indicator_render_count]
    simp [render_count]
  · intro h hconv
    obtain ⟨s', out, hs, hr, hd, _⟩ := page_switch_due pal hw env s hp h hconv
    refine ⟨⟨s', out, hs, hr, hd⟩, ?_⟩
    intro hhold hclick
    rw [loop_idle pal hw env s hhold hclick, hs]
    refine ⟨_, _, rfl, ?_, hd⟩
    rw [render_count_append, erase_indicator_render_count, hr]

/-- Witness of C6 on the Thermometer page with next-due time 3000: a pass at 2999 ms
draws nothing, a pass at 3000 ms renders once and moves the next-due time to 13000. -/
theorem refresh_gating_witness :
    page_switch m5gfx tenths (pass 2999 idle { code := 250 }) (on_page 1 3000) =
      some (on_page 1 3000, []) ∧
    ∃ s' out, page_switch m5gfx tenths (pass 3000 idle { code := 250 }) (on_page 1 3000) =
        some (s', out) ∧ render_count 1 out = 1 ∧ next_due 1 s' = 13000 :=
  ⟨((refresh_gating m5gfx tenths (pass 2999 idle { code := 250 }) (on_page 1 3000)
      (by decide)).2.1 (by decide)).1,
   ((refresh_gating m5gfx tenths (pass 3000 idle { code := 250 }) (on_page 1 3000)
      (by decide)).2.2 (by decide) (by decide)).1⟩

/-- C7 fails on the Battery page.  After `setup()`, four clicks at 100, 200, 300 and
400 ms visit Battery, Splash and Clock and come back to Thermometer; the visit to Battery
left `update_page3` at 5100.  The click at 1000 ms selects Battery again, clears the screen,
and the pass draws nothing of the page: `update_page3` was not reset and is not yet due. -/
theorem battery_not_rendered_on_entry :
    ∃ s out,
      run m5gfx tenths
        [pass 100 click_a { code := 250 }, pass 200 click_a { code := 250 },
         pass 300 click_a { code := 250 }, pass 400 click_a { code := 250 }]
        (setup tenths none) = some (s, out) ∧
      s.display_page = 1 ∧ s.update_page3 = 5100 ∧
      ∃ s' out', loop m5gfx tenths (pass 1000 click_a { code := 250 }) s = some (s', out') ∧
        s'.display_page = 2 ∧ out' = [Effect.clear, Effect.fillCircle 8 0] ∧
        render_count 2 out' = 0 ∧ s'.update_page3 = 5100 ∧ s'.update_tod_ms = 0 ∧
        s'.update_temp_sensor_ms = 0 :=
  ⟨_, _, rfl, rfl, rfl, _, _, rfl, rfl, rfl, rfl, rfl, rfl, rfl⟩

/-- C9: the hold handler never changes the page: whenever it returns, `display_page` is
what it was.  On the Battery and Splash pages it returns at once with the state untouched
and nothing drawn.  On the Clock page it returns once the network is up, the time is
synced and the next second has begun; on the Thermometer page it returns once button A
is released, then clicked, and one more button update is taken. -/
theorem hold_keeps_page (pal : Palette) (hw : Fpu) (env : Env) (s : State) :
    (∀ s' btn out, hold_handler pal hw env s = some (s', btn, out) →
      s'.display_page = s.display_page) ∧
    (s.display_page = 2 ∨ s.display_page = 3 →
      hold_handler pal hw env s = some (s, env.update0, [])) ∧
    (s.display_page = 0 → env.update0.a_holding = true →
      true ∈ env.wifi_connected → false ∈ env.sntp_reset →
      (∃ t0 later now, env.time = t0 :: later ∧ now ∈ later ∧ t0 + 1 ≤ now) →
      ∃ s' out, hold_handler pal hw env s = some (s', env.update0, out) ∧
        s'.display_page = 0) ∧
    (s.display_page = 1 → env.update0.a_holding = true →
      ∀ rel later exit last rest,
        wait_release env.update0 env.updates = some (rel, later) →
        poll_until (fun b => b.a_clicked) later = some (exit, last :: rest) →
        ∃ s' out, hold_handler pal hw env s = some (s', last, out) ∧ s'.display_page = 1) := by
  refine ⟨?_, ?_, ?_, ?_⟩
  · intro s' btn out h
    exact (hold_handler_page pal hw env s s' btn out h).1
  · intro hp
    unfold hold_handler
    have h0 : ¬ s.display_page = 0 := by omega
    have h1 : ¬ s.display_page = 1 := by omega
    simp [h0, h1]
  · intro hp hhold hwifi hsntp htime
    obtain ⟨out, ho⟩ := sync_rtc_to_ntp_returns env hwifi hsntp htime
    unfold hold_handler
    rw [if_pos hhold, if_pos hp, ho]
    exact ⟨_, _, rfl, rfl⟩
  · intro hp hhold rel later exit last rest hrel hexit
    obtain ⟨tc', drawn, hc⟩ := calibrate_polls_returns hw later s.temp_correction exit _ hexit
    have h0 : ¬ s.display_page = 0 := by omega
    unfold hold_handler
    rw [if_pos hhold, if_neg h0, if_pos hp]
    unfold calibrate
    rw [hrel]
    simp only
    rw [hc]
    exact ⟨_, _, rfl, rfl⟩

/-- Witness of C9: a hold on the Battery page changes nothing; a hold on the Clock page
returns on page 0 after one network poll, one sync poll and two clock readings; a hold on
the Thermometer page followed by release, a click of A and one more update returns on
page 1. -/
theorem hold_keeps_page_witness :
    hold_handler m5gfx tenths (pass 0 hold_a { code := 250 }) (on_page 2 7000) =
      some (on_page 2 7000, hold_a, []) ∧
    (∃ s' out,
      hold_handler m5gfx tenths
        { pass 0 hold_a { code := 250 } with
          wifi_connected := [true], sntp_reset := [false], time := [10, 11] }
        (on_page 0 7000) = some (s', hold_a, out) ∧ s'.display_page = 0) ∧
    (∃ s' out,
      hold_handler m5gfx tenths
        { pass 0 hold_a { code := 250 } with updates := [idle, click_a, idle] }
        (on_page 1 7000) = some (s', idle, out) ∧ s'.display_page = 1) :=
  ⟨(hold_keeps_page m5gfx tenths (pass 0 hold_a { code := 250 }) (on_page 2 7000)).2.1
      (Or.inl rfl),
   (hold_keeps_page m5gfx tenths
      { pass 0 hold_a { code := 250 } with
        wifi_connected := [true], sntp_reset := [false], time := [10, 11] }
      (on_page 0 7000)).2.2.1 rfl rfl (by decide) (by decide) ⟨10, [11], 11, rfl, by decide, by decide⟩,
   (hold_keeps_page m5gfx tenths
      { pass 0 hold_a { code := 250 } with updates := [idle, click_a, idle] }
      (on_page 1 7000)).2.2.2 rfl rfl idle [click_a, idle] click_a idle [] rfl rfl⟩

/-- C10 fails for the digits.  At 25.0 degrees the colour rule gives orange, the bar is
orange, but the temperature string is drawn in green.  At -60.0 degrees the rule gives
dark-grey for the temperature, while the bar takes the colour of the clamped value 10,
blue, and the string is green again. -/
theorem temperature_text_not_colour_coded :
    (∃ s' out,
      page_switch m5gfx tenths (pass 1000 idle { code := 250 }) (on_page 1 0) = some (s', out) ∧
      temperature_text_color none out = some m5gfx.TFT_GREEN ∧
      bar_fill_color out = some m5gfx.TFT_ORANGE ∧
      temp_to_color m5gfx (tenths.round (tenths.add { code := 250 } { code := 0 })) =
        m5gfx.TFT_ORANGE ∧
      m5gfx.TFT_GREEN ≠ m5gfx.TFT_ORANGE) ∧
    (∃ s' out,
      page_switch m5gfx tenths (pass 1000 idle { code := -550 })
        { on_page 1 0 with temp_correction := { code := -50 } } = some (s', out) ∧
      temperature_text_color none out = some m5gfx.TFT_GREEN ∧
      bar_fill_color out = some m5gfx.TFT_BLUE ∧
      temp_to_color m5gfx (tenths.round (tenths.add { code := -550 } { code := -50 })) =
        m5gfx.TFT_DARKGREY ∧
      m5gfx.TFT_GREEN ≠ m5gfx.TFT_DARKGREY ∧ m5gfx.TFT_BLUE ≠ m5gfx.TFT_DARKGREY) :=
  ⟨⟨_, _, rfl, rfl, rfl, rfl, by decide⟩, ⟨_, _, rfl, rfl, rfl, rfl, by decide, by decide⟩⟩

/-- C10, amended: on every Thermometer refresh with the sensor connected (and completing
its conversion) the temperature string is drawn in green whatever the temperature, and
the fill colour of the bar is `temp_to_color` of the rounded temperature clamped to
10..40. -/
theorem thermometer_refresh_colours (pal : Palette) (hw : Fpu) (env : Env) (s : State)
    (hp : s.display_page = 1) (hdue : s.update_temp_sensor_ms ≤ env.millis_check)
    (hc : env.is_connected = true) (hconv : true ∈ env.conversion_complete) :
    ∃ s' out, page_switch pal hw env s = some (s', out) ∧
      temperature_text_color none out = some pal.TFT_GREEN ∧
      bar_fill_color out =
        some (temp_to_color pal (clamp (hw.round (hw.add env.temp_c s.temp_correction)) 10 40)) := by
  obtain ⟨a, rest, hpoll⟩ :=
    poll_until_of_mem (fun complete => complete) env.conversion_complete ⟨true, hconv, rfl⟩
  have h0 : ¬ s.display_page = 0 := by omega
  unfold page_switch
  rw [if_neg h0, if_pos hp, if_pos hdue]
  unfold draw_thermometer
  simp only [hc, if_true, hpoll]
  refine ⟨_, _, rfl, ?_, ?_⟩
  · simp [temperature_text_color]
  · simp [bar_fill_color, thermom_bar_color_eq]

/-- Witness of amended C10 at 31.4 degrees: green digits, red bar. -/
theorem thermometer_refresh_colours_witness :
    ∃ s' out,
      page_switch m5gfx tenths (pass 1000 idle { code := 314 }) (on_page 1 0) = some (s', out) ∧
      temperature_text_color none out = some m5gfx.TFT_GREEN ∧
      bar_fill_color out =
        some (temp_to_color m5gfx
          (clamp (tenths.round (tenths.add { code := 314 } (on_page 1 0).temp_correction)) 10 40)) :=
  thermometer_refresh_colours m5gfx tenths (pass 1000 idle { code := 314 }) (on_page 1 0)
    rfl (by decide) rfl (by decide)

/-- The colour rule on the thermometer scale 10..40 takes one of its five table branches
and does not read the fallback entry of the colour table. -/
theorem temp_to_color_on_scale (pal : Palette) (d : Int) (h10 : 10 ≤ d) (h40 : d ≤ 40) :
    (temp_to_color pal d = pal.TFT_BLUE ∨ temp_to_color pal d = pal.TFT_SKYBLUE ∨
      temp_to_color pal d = pal.color24to16 0xff944d ∨ temp_to_color pal d = pal.TFT_ORANGE ∨
      temp_to_color pal d = pal.TFT_RED) ∧
    (∀ grey : Int, temp_to_color { pal with TFT_DARKGREY := grey } d = temp_to_color pal d) := by
  constructor
  · unfold temp_to_color
    split_ifs
    · exact Or.inl rfl
    · exact Or.inr (Or.inl rfl)
    · exact Or.inr (Or.inr (Or.inl rfl))
    · exact Or.inr (Or.inr (Or.inr (Or.inl rfl)))
    · exact Or.inr (Or.inr (Or.inr (Or.inr rfl)))
    · omega
  · intro grey
    unfold temp_to_color
    split_ifs <;> first | rfl | omega

/-- C11: for every rounded temperature the value handed to `temp_to_color` on the
Thermometer page lies in 10..40, so the `default` branch is not taken: the bar colour is
blue, sky-blue, light-orange, orange or red, it does not depend on the dark-grey entry of
the colour table, and where dark-grey differs from those five it is never dark-grey.  The
same holds for the bar that a Thermometer refresh with a connected sensor draws. -/
theorem bar_color_never_fallback (pal : Palette) (hw : Fpu) (env : Env) (s : State) (t : Int) :
    (10 ≤ (thermom_bar pal t).disp_temp ∧ (thermom_bar pal t).disp_temp ≤ 40) ∧
    (thermom_bar pal t).bar_color = temp_to_color pal (thermom_bar pal t).disp_temp ∧
    ((thermom_bar pal t).bar_color = pal.TFT_BLUE ∨
      (thermom_bar pal t).bar_color = pal.TFT_SKYBLUE ∨
      (thermom_bar pal t).bar_color = pal.color24to16 0xff944d ∨
      (thermom_bar pal t).bar_color = pal.TFT_ORANGE ∨
      (thermom_bar pal t).bar_color = pal.TFT_RED) ∧
    (∀ grey : Int,
      (thermom_bar { pal with TFT_DARKGREY := grey } t).bar_color = (thermom_bar pal t).bar_color) ∧
    (pal.TFT_DARKGREY ≠ pal.TFT_BLUE → pal.TFT_DARKGREY ≠ pal.TFT_SKYBLUE →
      pal.TFT_DARKGREY ≠ pal.color24to16 0xff944d → pal.TFT_DARKGREY ≠ pal.TFT_ORANGE →
      pal.TFT_DARKGREY ≠ pal.TFT_RED →
      (thermom_bar pal t).bar_color ≠ pal.TFT_DARKGREY) ∧
    (s.display_page = 1 → s.update_temp_sensor_ms ≤ env.millis_check →
      env.is_connected = true → true ∈ env.conversion_complete →
      ∃ s' out c, page_switch pal hw env s = some (s', out) ∧ bar_fill_color out = some c ∧
        (c = pal.TFT_BLUE ∨ c = pal.TFT_SKYBLUE ∨ c = pal.color24to16 0xff944d ∨
          c = pal.TFT_ORANGE ∨ c = pal.TFT_RED)) := by
  have hclamp : ∀ u : Int, 10 ≤ clamp u 10 40 ∧ clamp u 10 40 ≤ 40 := by
    intro u; unfold clamp; omega
  have hd : (thermom_bar pal t).disp_temp = clamp t 10 40 := by
    unfold thermom_bar clamp
    simp only
    split_ifs <;> omega
  have hfive := (temp_to_color_on_scale pal (clamp t 10 40) (hclamp t).1 (hclamp t).2).1
  refine ⟨?_, rfl, ?_, ?_, ?_, ?_⟩
  · rw [hd]; exact hclamp t
  · rw [thermom_bar_color_eq]; exact hfive
  · intro grey
    rw [thermom_bar_color_eq, thermom_bar_color_eq]
    exact (temp_to_color_on_scale pal (clamp t 10 40) (hclamp t).1 (hclamp t).2).2 grey
  · intro hb hs hl ho hr
    rw [thermom_bar_color_eq]
    rcases hfive with h | h | h | h | h <;> rw [h] <;> exact fun e => by
      first
        | exact hb e.symm
        | exact hs e.symm
        | exact hl e.symm
        | exact ho e.symm
        | exact hr e.symm
  · intro hp hdue hc hconv
    obtain ⟨a, rest, hpoll⟩ :=
      poll_until_of_mem (fun complete => complete) env.conversion_complete ⟨true, hconv, rfl⟩
    have h0 : ¬ s.display_page = 0 := by omega
    unfold page_switch
    rw [if_neg h0, if_pos hp, if_pos hdue]
    unfold draw_thermometer
    simp only [hc, if_true, hpoll]
    refine ⟨_, _, (thermom_bar pal (hw.round (hw.add env.temp_c s.temp_correction))).bar_color,
      rfl, ?_, ?_⟩
    · simp only [bar_fill_color]
    · rw [thermom_bar_color_eq]
      exact (temp_to_color_on_scale pal _ (hclamp _).1 (hclamp _).2).1

/-- Witness of C11 with the shipped colours: at a rounded reading of 200 the bar is not
dark-grey although `temp_to_color` of 200 is, and a refresh at -60.0 degrees draws a bar
in one of the five table colours. -/
theorem bar_color_never_fallback_witness :
    temp_to_color m5gfx 200 = m5gfx.TFT_DARKGREY ∧
    (thermom_bar m5gfx 200).bar_color ≠ m5gfx.TFT_DARKGREY ∧
    (∃ s' out c,
      page_switch m5gfx tenths (pass 1000 idle { code := -600 }) (on_page 1 0) = some (s', out) ∧
      bar_fill_color out = some c ∧
      (c = m5gfx.TFT_BLUE ∨ c = m5gfx.TFT_SKYBLUE ∨ c = m5gfx.color24to16 0xff944d ∨
        c = m5gfx.TFT_ORANGE ∨ c = m5gfx.TFT_RED)) :=
  ⟨by decide,
   (bar_color_never_fallback m5gfx tenths (pass 1000 idle { code := -600 }) (on_page 1 0)
      200).2.2.2.2.1 (by decide) (by decide) (by decide) (by decide) (by decide),
   (bar_color_never_fallback m5gfx tenths (pass 1000 idle { code := -600 }) (on_page 1 0)
      200).2.2.2.2.2 rfl (by decide) rfl (by decide)⟩

/-! ## Calibration: theorems -/

/-- The calibration loop fed one click per poll and then the click of button A ends at
that click with the clicks applied in their order. -/
theorem calibrate_polls_clicks (hw : Fpu) (cs : List Click) (tc : float) (exit : Buttons)
    (rest : List Buttons) (ha : exit.a_clicked = true) (hb : exit.b_clicked = false)
    (hp : exit.pwr_clicked = false) :
    ∃ drawn, calibrate_polls hw tc (cs.map Click.poll ++ exit :: rest) =
      some (apply_clicks hw tc cs, drawn, rest) := by
  induction cs generalizing tc with
  | nil => exact ⟨[], by simp [calibrate_polls, apply_clicks, ha, hb, hp]⟩
  | cons c cs ih =>
    cases c with
    | increase =>
      obtain ⟨drawn, h⟩ := ih (hw.add_0_2 tc)
      exact ⟨Effect.drawString (Text.offset (hw.add_0_2 tc)) :: drawn,
        by simp [calibrate_polls, apply_clicks, Click.poll, click_b, idle, h]⟩
    | decrease =>
      obtain ⟨drawn, h⟩ := ih (hw.sub_0_2 tc)
      exact ⟨Effect.drawString (Text.offset (hw.sub_0_2 tc)) :: drawn,
        by simp [calibrate_polls, apply_clicks, Click.poll, click_pwr, idle, h]⟩

/-- C8 fails in the arithmetic of the target.  From offset 0.0, three increase clicks and
one decrease click leave the single `0x3ECCCCCE`, whose value `13421774 * 2^-25` is above
0.4 and farther from 0.4 than the single `0x3ECCCCCD`; the same four clicks with the
decrease first leave `0x3ECCCCCD`, so the offset is not a function of the two counts; and
one increase followed by one decrease leaves `0x314CCCCD`, not the start value 0.0. -/
theorem calibration_offset_not_exact :
    (hold_handler m5gfx ieee
        (calibration_env [Click.increase, Click.increase, Click.increase, Click.decrease])
        (on_page 1 0)).map (fun r => (r.1.temp_correction, r.1.eeprom_correction)) =
      some ({ code := 0x3ECCCCCE }, some { code := 0x3ECCCCCE }) ∧
    decode32 { code := 0x3ECCCCCE } = Fp.fin false (13421774 * 2 ^ 1049) ∧
    decode32 { code := 0x3ECCCCCD } = Fp.fin false (13421773 * 2 ^ 1049) ∧
    5 * (13421774 * 2 ^ 1049) ≠ 2 * 2 ^ 1074 ∧
    2 * 2 ^ 1074 - 5 * (13421773 * 2 ^ 1049) < 5 * (13421774 * 2 ^ 1049) - 2 * 2 ^ 1074 ∧
    (hold_handler m5gfx ieee
        (calibration_env [Click.decrease, Click.increase, Click.increase, Click.increase])
        (on_page 1 0)).map (fun r => r.1.temp_correction) = some { code := 0x3ECCCCCD } ∧
    (hold_handler m5gfx ieee (calibration_env [Click.increase, Click.decrease])
        (on_page 1 0)).map (fun r => r.1.temp_correction) = some { code := 0x314CCCCD } ∧
    (on_page 1 0).temp_correction = ieee.zero ∧
    ({ code := 0x314CCCCD } : float) ≠ ieee.zero := by
  refine ⟨?_, ?_, ?_, ?_, ?_, ?_, ?_, ?_, ?_⟩ <;> decide!

/-- C8, amended: in the calibration routine a sequence of increase and decrease clicks,
each registered in its own poll, leaves the offset at the result of applying the
platform's `+= 0.2` and `-= 0.2` to the start value in the order of the clicks, and the
value written to persistent storage on exit is `temp_correction` at exit.  In IEEE
arithmetic, three increases and one decrease from 0.0 leave the single `0x3ECCCCCE`,
which lies above 0.4 by less than `2^-24`. -/
theorem calibration_offset (pal : Palette) (hw : Fpu) (env : Env) (s : State) (cs : List Click)
    (rel exit last : Buttons) (rest : List Buttons)
    (hp : s.display_page = 1) (hhold : env.update0.a_holding = true)
    (hwait : wait_release env.update0 env.updates =
      some (rel, cs.map Click.poll ++ exit :: last :: rest))
    (ha : exit.a_clicked = true) (hb : exit.b_clicked = false)
    (hpwr : exit.pwr_clicked = false) :
    (∃ s' out, hold_handler pal hw env s = some (s', last, out) ∧
      s'.temp_correction = apply_clicks hw s.temp_correction cs ∧
      s'.eeprom_correction = some s'.temp_correction ∧
      Effect.eeprom_putFloat s'.temp_correction ∈ out) ∧
    apply_clicks ieee ieee.zero
      [Click.increase, Click.increase, Click.increase, Click.decrease] = { code := 0x3ECCCCCE } ∧
    decode32 { code := 0x3ECCCCCE } = Fp.fin false (13421774 * 2 ^ 1049) ∧
    2 * 2 ^ 1074 < 5 * (13421774 * 2 ^ 1049) ∧
    5 * (13421774 * 2 ^ 1049) < 2 * 2 ^ 1074 + 5 * 2 ^ 1050 := by
  refine ⟨?_, by decide!, by decide!, by decide!, by decide!⟩
  obtain ⟨drawn, hc⟩ :=
    calibrate_polls_clicks hw cs s.temp_correction exit (last :: rest) ha hb hpwr
  have h0 : ¬ s.display_page = 0 := by omega
  unfold hold_handler
  rw [if_pos hhold, if_neg h0, if_pos hp]
  unfold calibrate
  rw [hwait]
  simp only
  rw [hc]
  exact ⟨_, _, rfl, rfl, rfl, by simp⟩

/-- Witness of amended C8 in IEEE arithmetic: hold on the Thermometer page, release, three
clicks of B, one of the power button, the click of A and the closing update. -/
theorem calibration_offset_witness :
    ∃ s' out,
      hold_handler m5gfx ieee
        (calibration_env [Click.increase, Click.increase, Click.increase, Click.decrease])
        (on_page 1 0) = some (s', idle, out) ∧
      s'.temp_correction =
        apply_clicks ieee (on_page 1 0).temp_correction
          [Click.increase, Click.increase, Click.increase, Click.decrease] ∧
      s'.eeprom_correction = some s'.temp_correction ∧
      Effect.eeprom_putFloat s'.temp_correction ∈ out :=
  (calibration_offset m5gfx ieee
    (calibration_env [Click.increase, Click.increase, Click.increase, Click.decrease])
    (on_page 1 0) [Click.increase, Click.increase, Click.increase, Click.decrease]
    idle click_a idle [] rfl rfl rfl rfl rfl rfl).1

end M5StickC
